import Mathlib

/-
Verification of the Webhook-to-Spreadsheet Bridge (src/index.js).

The program is an Express service with one POST /webhook handler. The handler
validates the body, then addToCalendar resolves (or creates) a sheet inside a
fixed spreadsheet and appends one row. We embed the request values as
JavaScript primitives (with truthiness), the remote spreadsheet backend as an
explicit state, and each remote call as an entry of a call trace. Remote
failures are injected through a FailSpec so that the error-wrapping paths can
be examined.
-/

set_option autoImplicit false

namespace Calendar

/-- A JavaScript primitive value as it can appear in the JSON webhook body.
`vUndefined` stands for `undefined`, i.e. what reading an absent field yields. -/
inductive JSVal where
  | vStr (s : String)
  | vNum (n : Int)
  | vBool (b : Bool)
  | vNull
  | vUndefined
deriving DecidableEq, Repr

/-- JavaScript truthiness of a primitive value: the empty string, 0, false,
null and undefined are falsy, everything else is truthy. -/
def JSVal.truthy : JSVal → Bool
  | .vStr s => s != ""
  | .vNum n => n != 0
  | .vBool b => b
  | .vNull => false
  | .vUndefined => false

/-- A field is present when it is not `undefined` (a JSON body cannot carry
`undefined`, so present means the key occurs in the object). -/
def JSVal.present (v : JSVal) : Bool := v != .vUndefined

/-- JavaScript strict equality `v === s` against a string literal: true only
for the string value equal to the literal, false for every other type. -/
def JSVal.strictEqStr : JSVal → String → Bool
  | .vStr t, s => t == s
  | _, _ => false

/-- The fields of the `data` object that the code reads: `name`, `email`,
`date`, `time`, `description`. An absent field is `vUndefined`. -/
structure EventData where
  name : JSVal
  email : JSVal
  date : JSVal
  time : JSVal
  description : JSVal
deriving DecidableEq, Repr

/-- The `data` member of the request body: either a primitive (including
`undefined` when the key is absent, or `null`, `""`, `0`, `false`) or an
object carrying the five fields the code reads. -/
inductive BodyData where
  | prim (v : JSVal)
  | obj (d : EventData)
deriving DecidableEq, Repr

/-- JavaScript truthiness of the `data` member: objects are always truthy. -/
def BodyData.truthy : BodyData → Bool
  | .prim v => v.truthy
  | .obj _ => true

/-- Property read `data.name`; on a primitive it yields `undefined`. -/
def BodyData.name : BodyData → JSVal
  | .obj d => d.name
  | .prim _ => .vUndefined

/-- Property read `data.email`; on a primitive it yields `undefined`. -/
def BodyData.email : BodyData → JSVal
  | .obj d => d.email
  | .prim _ => .vUndefined

/-- Property read `data.date`; on a primitive it yields `undefined`. -/
def BodyData.date : BodyData → JSVal
  | .obj d => d.date
  | .prim _ => .vUndefined

/-- Property read `data.time`; on a primitive it yields `undefined`. -/
def BodyData.time : BodyData → JSVal
  | .obj d => d.time
  | .prim _ => .vUndefined

/-- Property read `data.description`; on a primitive it yields `undefined`. -/
def BodyData.description : BodyData → JSVal
  | .obj d => d.description
  | .prim _ => .vUndefined

/-- A parsed POST /webhook body: the two top-level fields the handler
destructures (src/index.js line 103). -/
structure RequestBody where
  event : JSVal
  data : BodyData
deriving DecidableEq, Repr

/-- One spreadsheet row, a list of cell values. -/
abbrev Row := List JSVal

/-- A sheet (named tab) of the remote spreadsheet: its internal identifier,
its title, its grid size, and its used data rows. Modelled from the spec's
remote dependency contract (spec section 6); the backend itself is not part
of src/. -/
structure Sheet where
  sheetId : Nat
  title : String
  rowCount : Nat
  columnCount : Nat
  rows : List Row
deriving DecidableEq, Repr

/-- The remote spreadsheet state: its sheets and the next fresh internal
identifier the backend will assign. Modelled from the spec's remote
dependency contract (spec section 6). -/
structure Spreadsheet where
  sheets : List Sheet
  nextId : Nat
deriving DecidableEq, Repr

/-- The first sheet carrying the given title, if any. -/
def Spreadsheet.findSheet (ss : Spreadsheet) (title : String) : Option Sheet :=
  ss.sheets.find? (fun s => s.title == title)

/-- Replace the first list element satisfying `p` by its image under `f`
(a range addressed by sheet title resolves to a single sheet). -/
def updateFirst {α : Type} (p : α → Bool) (f : α → α) : List α → List α
  | [] => []
  | s :: rest => if p s then f s :: rest else s :: updateFirst p f rest

/-- Modelled from the spec: the backend's batched structural update adding a
sheet. The service rejects a duplicate title; otherwise the sheet is created
with an empty used range and a fresh identifier and the new id is returned. -/
def addSheetOp (ss : Spreadsheet) (title : String) (rowCount columnCount : Nat) :
    Except String (Spreadsheet × Nat) :=
  if ss.sheets.any (fun s => s.title == title) then
    .error ("A sheet with the name \"" ++ title ++ "\" already exists")
  else
    .ok (⟨ss.sheets ++ [⟨ss.nextId, title, rowCount, columnCount, []⟩], ss.nextId + 1⟩,
         ss.nextId)

/-- Modelled from the spec: range value write of row 1 of the sheet addressed
by title (the header write targets `SHEET_NAME!A1:E1`). -/
def setHeaderOp (ss : Spreadsheet) (title : String) (header : Row) :
    Except String Spreadsheet :=
  if ss.sheets.any (fun s => s.title == title) then
    .ok ⟨updateFirst (fun s => s.title == title)
          (fun s => { s with rows := match s.rows with
                                     | [] => [header]
                                     | _ :: rest => header :: rest }) ss.sheets,
         ss.nextId⟩
  else
    .error ("Unable to parse range: " ++ title ++ "!A1:E1")

/-- Modelled from the spec: range value append, adding the given rows after
the last used row of the sheet addressed by title. -/
def appendOp (ss : Spreadsheet) (title : String) (newRows : List Row) :
    Except String Spreadsheet :=
  if ss.sheets.any (fun s => s.title == title) then
    .ok ⟨updateFirst (fun s => s.title == title)
          (fun s => { s with rows := s.rows ++ newRows }) ss.sheets,
         ss.nextId⟩
  else
    .error ("Unable to parse range: " ++ title ++ "!A:E")

/-- One remote call issued by the bridge, with the request fields the source
passes (used to state which calls a run performs, in order). -/
inductive ApiCall where
  | getMetadata
  | batchUpdateAddSheet (title : String) (rowCount columnCount : Nat)
  | valuesUpdate (range : String) (valueInputOpt : String) (values : List Row)
  | valuesAppend (range : String) (valueInputOpt : String) (insertDataOpt : String)
      (values : List Row)
deriving DecidableEq, Repr

/-- Embeds getSheetId (src/index.js lines 22-30): read the spreadsheet
metadata, find the sheet whose title equals sheetName, and return its
sheetId, or null (here `none`) when no title matches. -/
def getSheetId (ss : Spreadsheet) (sheetName : String) : Option Nat :=
  match ss.sheets.find? (fun s => s.title == sheetName) with
  | some s => some s.sheetId
  | none => none

/-- JavaScript truthiness of the `sheetId` variable of src/index.js line 38,
whose value is a number or null: null and 0 are both falsy, so the guard
`!sheetId` on line 40 fires for a resolved id of 0 as well as for null. -/
def sheetIdTruthy : Option Nat → Bool
  | none => false
  | some n => n != 0

/-- The header row written on a freshly created sheet (src/index.js line 66). -/
def headerRow : Row :=
  [.vStr "Date", .vStr "Time", .vStr "Name", .vStr "Email", .vStr "Description"]

/-- The JavaScript default pattern `x || dflt` used on src/index.js
lines 79, 80 and 83: the value itself when truthy, the default otherwise. -/
def jsOr (v : JSVal) (dflt : JSVal) : JSVal :=
  if v.truthy then v else dflt

/-- The row literal of src/index.js lines 78-84. `today` stands for the value
of `new Date().toISOString().split('T')[0]`, the current UTC date formatted
YYYY-MM-DD. -/
def buildRow (today : String) (d : BodyData) : Row :=
  [jsOr d.date (.vStr today), jsOr d.time (.vStr "12:00"), d.name, d.email,
   jsOr d.description (.vStr "")]

/-- Injected failures for the four remote calls, each carrying the message of
the error the backend raises there; `none` means the call itself succeeds. -/
structure FailSpec where
  metaErr : Option String
  createErr : Option String
  headerErr : Option String
  appendErr : Option String
deriving DecidableEq, Repr

/-- A fully healthy backend: no injected failure. -/
def noFail : FailSpec := ⟨none, none, none, none⟩

instance instDecEqExcept {e a : Type} [DecidableEq e] [DecidableEq a] :
    DecidableEq (Except e a)
  | .error x, .error y =>
    if h : x = y then .isTrue (by rw [h])
    else .isFalse (fun hc => h (Except.error.inj hc))
  | .error _, .ok _ => .isFalse (fun hc => Except.noConfusion hc)
  | .ok _, .error _ => .isFalse (fun hc => Except.noConfusion hc)
  | .ok x, .ok y =>
    if h : x = y then .isTrue (by rw [h])
    else .isFalse (fun hc => h (Except.ok.inj hc))

/-- Outcome of one addToCalendar run: the returned value (the appended row) or
the thrown message, the backend state afterwards, and the calls issued. -/
structure CalOutcome where
  result : Except String Row
  finalState : Spreadsheet
  trace : List ApiCall
deriving DecidableEq, Repr

/-- The error wrapping of src/index.js line 94:
`Failed to update spreadsheet: ` followed by the original message. -/
def wrapErr (msg : String) : String := "Failed to update spreadsheet: " ++ msg

/-- The append step of addToCalendar (src/index.js lines 72-89): one
values.append call of the built row on range `SHEET_NAME!A:E` with
USER_ENTERED parsing and INSERT_ROWS. -/
def appendStep (sheetName today : String) (fs : FailSpec) (d : BodyData)
    (ss : Spreadsheet) (tr : List ApiCall) : CalOutcome :=
  let row := buildRow today d
  let tr' := tr ++ [.valuesAppend (sheetName ++ "!A:E") "USER_ENTERED" "INSERT_ROWS" [row]]
  match fs.appendErr with
  | some m => ⟨.error (wrapErr m), ss, tr'⟩
  | none =>
    match appendOp ss sheetName [row] with
    | .error m => ⟨.error (wrapErr m), ss, tr'⟩
    | .ok ss' => ⟨.ok row, ss', tr'⟩

/-- Embeds addToCalendar (src/index.js lines 33-96): resolve the sheet id;
when the id is falsy, create the sheet (1000 x 10 grid) and write the header
row; then append one data row. Every backend error is wrapped by wrapErr and
rethrown. -/
def addToCalendar (sheetName today : String) (fs : FailSpec) (ss : Spreadsheet)
    (d : BodyData) : CalOutcome :=
  let tr0 : List ApiCall := [.getMetadata]
  match fs.metaErr with
  | some m => ⟨.error (wrapErr m), ss, tr0⟩
  | none =>
    if !(sheetIdTruthy (getSheetId ss sheetName)) then
      let tr1 := tr0 ++ [.batchUpdateAddSheet sheetName 1000 10]
      match fs.createErr with
      | some m => ⟨.error (wrapErr m), ss, tr1⟩
      | none =>
        match addSheetOp ss sheetName 1000 10 with
        | .error m => ⟨.error (wrapErr m), ss, tr1⟩
        | .ok (ss1, _) =>
          let tr2 := tr1 ++ [.valuesUpdate (sheetName ++ "!A1:E1") "USER_ENTERED" [headerRow]]
          match fs.headerErr with
          | some m => ⟨.error (wrapErr m), ss1, tr2⟩
          | none =>
            match setHeaderOp ss1 sheetName headerRow with
            | .error m => ⟨.error (wrapErr m), ss1, tr2⟩
            | .ok ss2 => appendStep sheetName today fs d ss2 tr2
    else
      appendStep sheetName today fs d ss tr0

/-- An HTTP response of the handler, restricted to the shapes the source can
produce: the 200 success body, a 400 body with an error string, or the 500
body with the fixed error string and a details string. -/
inductive HttpResponse where
  | ok200 (success : Bool) (message : String)
  | badRequest (error : String)
  | serverError (error : String) (details : String)
deriving DecidableEq, Repr

/-- Outcome of one POST /webhook request: the response, the backend state
afterwards, and the remote calls issued while serving it. -/
structure HandlerOutcome where
  response : HttpResponse
  finalState : Spreadsheet
  trace : List ApiCall
deriving DecidableEq, Repr

/-- Embeds the POST /webhook handler (src/index.js lines 99-129): the three
truthiness validation gates, the strict event comparison, the addToCalendar
call, the 200 success body, and the catch turning a thrown message into
500 with `error: Internal server error` and `details` set to that message.
Sub-errors of a backend error (`error.errors`) are only logged (line 93);
the response carries nothing but the two fields of HttpResponse.serverError. -/
def handleWebhook (sheetName today : String) (fs : FailSpec) (ss : Spreadsheet)
    (body : RequestBody) : HandlerOutcome :=
  if !body.event.truthy || !body.data.truthy then
    ⟨.badRequest "Missing event or data", ss, []⟩
  else if !(body.event.strictEqStr "schedule_appointment") then
    ⟨.badRequest "Unsupported event type", ss, []⟩
  else if !body.data.name.truthy || !body.data.email.truthy then
    ⟨.badRequest "Missing required fields", ss, []⟩
  else
    let out := addToCalendar sheetName today fs ss body.data
    match out.result with
    | .ok _ => ⟨.ok200 true "Event added to calendar", out.finalState, out.trace⟩
    | .error m => ⟨.serverError "Internal server error" m, out.finalState, out.trace⟩

/-- A data object carrying only name and email, as in the spec's scenario
`{event: schedule_appointment, data: {name: Jane Doe, email: jane@example.com}}`. -/
def janeData : EventData :=
  ⟨.vStr "Jane Doe", .vStr "jane@example.com", .vUndefined, .vUndefined, .vUndefined⟩

/-- A spreadsheet with no sheets at all. -/
def emptyState : Spreadsheet := ⟨[], 0⟩

/-- A spreadsheet whose only sheet is titled Calendar and carries the internal
identifier 0 (the id Google assigns to the first sheet of every
spreadsheet). -/
def zeroIdState : Spreadsheet := ⟨[⟨0, "Calendar", 1000, 10, [headerRow]⟩], 1⟩

/-- A data object whose date, time and description are present but falsy:
the empty string, the number 0, and the boolean false. -/
def falsyFieldsData : EventData :=
  ⟨.vStr "Jane Doe", .vStr "jane@example.com", .vStr "", .vNum 0, .vBool false⟩

/-! Helper lemmas about the list operations of the backend model. -/

theorem find?_updateFirst {α : Type} (p : α → Bool) (f : α → α)
    (hf : ∀ s, p s = true → p (f s) = true) :
    ∀ l : List α, (updateFirst p f l).find? p = (l.find? p).map f := by
  intro l
  induction l with
  | nil => rfl
  | cons s rest ih =>
    by_cases hs : p s = true
    · simp [updateFirst, hs, List.find?, hf s hs]
    · have hs' : p s = false := by
        cases h : p s with
        | false => rfl
        | true => exact absurd h hs
      simp [updateFirst, hs', List.find?, ih]

theorem updateFirst_append_last {α : Type} (p : α → Bool) (f : α → α)
    (l : List α) (h : ∀ x ∈ l, p x = false) (s : α) (hs : p s = true) :
    updateFirst p f (l ++ [s]) = l ++ [f s] := by
  induction l with
  | nil => simp [updateFirst, hs]
  | cons x rest ih =>
    have hx : p x = false := h x (List.mem_cons_self x rest)
    simp only [List.cons_append, updateFirst, hx, Bool.false_eq_true, if_false,
      List.append_eq]
    rw [ih (fun y hy => h y (List.mem_cons_of_mem x hy))]

theorem find?_append_last {α : Type} (p : α → Bool)
    (l : List α) (h : ∀ x ∈ l, p x = false) (s : α) (hs : p s = true) :
    (l ++ [s]).find? p = some s := by
  induction l with
  | nil => simp [List.find?, hs]
  | cons x rest ih =>
    have hx : p x = false := h x (List.mem_cons_self x rest)
    simp only [List.cons_append, List.find?, hx]
    exact ih (fun y hy => h y (List.mem_cons_of_mem x hy))

theorem any_eq_true_of_find?_eq_some {α : Type} {p : α → Bool} {l : List α}
    {a : α} (h : l.find? p = some a) : l.any p = true := by
  rcases List.any_eq_true.mpr ⟨a, List.mem_of_find?_eq_some h, List.find?_some h⟩ with h'
  exact h'

theorem any_eq_false_of_find?_eq_none {α : Type} {p : α → Bool} {l : List α}
    (h : l.find? p = none) : l.any p = false := by
  have h' := List.find?_eq_none.mp h
  cases ha : l.any p with
  | false => rfl
  | true =>
    rcases List.any_eq_true.mp ha with ⟨x, hx, hpx⟩
    exact absurd hpx (h' x hx)

/-! Characterization of addToCalendar on a healthy backend, one lemma per
branch of the `if (!sheetId)` test of src/index.js line 40. -/

theorem addToCalendar_found (sheetName today : String) (d : BodyData)
    (ss : Spreadsheet) (sh0 : Sheet)
    (hfind : ss.sheets.find? (fun s => s.title == sheetName) = some sh0)
    (hid : sh0.sheetId ≠ 0) :
    addToCalendar sheetName today noFail ss d =
      ⟨.ok (buildRow today d),
       ⟨updateFirst (fun s => s.title == sheetName)
          (fun s => { s with rows := s.rows ++ [buildRow today d] }) ss.sheets,
        ss.nextId⟩,
       [.getMetadata,
        .valuesAppend (sheetName ++ "!A:E") "USER_ENTERED" "INSERT_ROWS"
          [buildRow today d]]⟩ := by
  have hany : ss.sheets.any (fun s => s.title == sheetName) = true :=
    any_eq_true_of_find?_eq_some hfind
  have htr : sheetIdTruthy (getSheetId ss sheetName) = true := by
    simp [getSheetId, hfind, sheetIdTruthy, hid]
  simp [addToCalendar, noFail, htr, appendStep, appendOp, hany]

theorem addToCalendar_notFound (sheetName today : String) (d : BodyData)
    (ss : Spreadsheet)
    (hfind : ss.sheets.find? (fun s => s.title == sheetName) = none) :
    addToCalendar sheetName today noFail ss d =
      ⟨.ok (buildRow today d),
       ⟨ss.sheets ++ [⟨ss.nextId, sheetName, 1000, 10, [headerRow, buildRow today d]⟩],
        ss.nextId + 1⟩,
       [.getMetadata, .batchUpdateAddSheet sheetName 1000 10,
        .valuesUpdate (sheetName ++ "!A1:E1") "USER_ENTERED" [headerRow],
        .valuesAppend (sheetName ++ "!A:E") "USER_ENTERED" "INSERT_ROWS"
          [buildRow today d]]⟩ := by
  have hall : ∀ x ∈ ss.sheets, (x.title == sheetName) = false := by
    intro x hx
    have hnx := List.find?_eq_none.mp hfind x hx
    cases h : (x.title == sheetName) with
    | false => rfl
    | true => exact absurd h hnx
  have hany : ss.sheets.any (fun s => s.title == sheetName) = false :=
    any_eq_false_of_find?_eq_none hfind
  have htr : sheetIdTruthy (getSheetId ss sheetName) = false := by
    simp [getSheetId, hfind, sheetIdTruthy]
  have hu1 : updateFirst (fun s => s.title == sheetName)
      (fun s => { s with rows := match s.rows with
                                 | [] => [headerRow]
                                 | _ :: rest => headerRow :: rest })
      (ss.sheets ++ [⟨ss.nextId, sheetName, 1000, 10, []⟩]) =
      ss.sheets ++ [⟨ss.nextId, sheetName, 1000, 10, [headerRow]⟩] := by
    rw [updateFirst_append_last _ _ _ hall _ (by simp)]
  have hu2 : updateFirst (fun s => s.title == sheetName)
      (fun s => { s with rows := s.rows ++ [buildRow today d] })
      (ss.sheets ++ [⟨ss.nextId, sheetName, 1000, 10, [headerRow]⟩]) =
      ss.sheets ++ [⟨ss.nextId, sheetName, 1000, 10, [headerRow, buildRow today d]⟩] := by
    rw [updateFirst_append_last _ _ _ hall _ (by simp)]
    rfl
  simp [addToCalendar, noFail, htr, addSheetOp, hany, setHeaderOp, appendStep, appendOp,
    List.any_append, hu1, hu2]

/-- A truthy `data.name` forces `data` to be an object, hence truthy. -/
theorem BodyData.truthy_of_name_truthy {d : BodyData} (h : d.name.truthy = true) :
    d.truthy = true := by
  cases d with
  | prim v => simp [BodyData.name, JSVal.truthy] at h
  | obj _ => rfl

/-- On a body passing all three validation gates, the handler's outcome is the
outcome of addToCalendar, dressed as 200 on success and 500 on a throw. -/
theorem handleWebhook_valid (sheetName today : String) (fs : FailSpec)
    (ss : Spreadsheet) (body : RequestBody)
    (hev : body.event = .vStr "schedule_appointment")
    (hn : body.data.name.truthy = true) (he : body.data.email.truthy = true) :
    handleWebhook sheetName today fs ss body =
      match (addToCalendar sheetName today fs ss body.data).result with
      | .ok _ => ⟨.ok200 true "Event added to calendar",
                  (addToCalendar sheetName today fs ss body.data).finalState,
                  (addToCalendar sheetName today fs ss body.data).trace⟩
      | .error m => ⟨.serverError "Internal server error" m,
                     (addToCalendar sheetName today fs ss body.data).finalState,
                     (addToCalendar sheetName today fs ss body.data).trace⟩ := by
  have hd : body.data.truthy = true := BodyData.truthy_of_name_truthy hn
  have hevt : body.event.truthy = true := by rw [hev]; decide
  have hseq : body.event.strictEqStr "schedule_appointment" = true := by rw [hev]; decide
  simp [handleWebhook, hevt, hd, hn, he, hseq]

/-- When the resolver returns the null sentinel, the metadata listing holds no
sheet with the target title. -/
theorem find?_eq_none_of_getSheetId_eq_none {ss : Spreadsheet} {name : String}
    (h : getSheetId ss name = none) :
    ss.sheets.find? (fun s => s.title == name) = none := by
  unfold getSheetId at h
  cases hf : ss.sheets.find? (fun s => s.title == name) with
  | none => rfl
  | some s => rw [hf] at h; exact Option.noConfusion h

/-- A value strictly equal to the non-empty literal is truthy. -/
theorem JSVal.truthy_of_scheduleEq {v : JSVal}
    (h : v.strictEqStr "schedule_appointment" = true) : v.truthy = true := by
  cases v with
  | vStr s =>
    have hs : s = "schedule_appointment" := by simpa [JSVal.strictEqStr] using h
    subst hs
    decide
  | vNum n => simp [JSVal.strictEqStr] at h
  | vBool b => simp [JSVal.strictEqStr] at h
  | vNull => simp [JSVal.strictEqStr] at h
  | vUndefined => simp [JSVal.strictEqStr] at h

/-- On a healthy backend whose resolved sheet id (if any) is nonzero, the
sheet addressed by sheetName ends the run holding buildRow as its last row. -/
theorem addToCalendar_appends_buildRow (sheetName today : String) (d : BodyData)
    (ss : Spreadsheet)
    (hid : ∀ s, ss.findSheet sheetName = some s → s.sheetId ≠ 0) :
    ∃ sh, (addToCalendar sheetName today noFail ss d).finalState.findSheet sheetName
        = some sh ∧ sh.rows.getLast? = some (buildRow today d) := by
  cases hfind : ss.sheets.find? (fun s => s.title == sheetName) with
  | some sh0 =>
    have hsid : sh0.sheetId ≠ 0 := hid sh0 hfind
    rw [addToCalendar_found sheetName today d ss sh0 hfind hsid]
    refine ⟨{ sh0 with rows := sh0.rows ++ [buildRow today d] }, ?_, ?_⟩
    · show Spreadsheet.findSheet _ sheetName = _
      unfold Spreadsheet.findSheet
      dsimp only
      rw [find?_updateFirst (fun s => s.title == sheetName)
          (fun s => { s with rows := s.rows ++ [buildRow today d] })
          (fun s hs => hs) ss.sheets, hfind]
      rfl
    · simp
  | none =>
    have hall : ∀ x ∈ ss.sheets, (x.title == sheetName) = false := by
      intro x hx
      have hnx := List.find?_eq_none.mp hfind x hx
      cases h : (x.title == sheetName) with
      | false => rfl
      | true => exact absurd h hnx
    rw [addToCalendar_notFound sheetName today d ss hfind]
    refine ⟨⟨ss.nextId, sheetName, 1000, 10, [headerRow, buildRow today d]⟩, ?_, rfl⟩
    show Spreadsheet.findSheet _ sheetName = _
    unfold Spreadsheet.findSheet
    exact find?_append_last _ _ hall _ (by simp)

/-- C1: for every request body whose event is the literal string
schedule_appointment and whose data.name and data.email are non-empty
strings, the handler answers 200 with success true and message
`Event added to calendar`, and exactly one row is appended to the sheet
addressed by the configured name: its rows grow by exactly the built row
(after the header row when the sheet is freshly created), and that row
carries the name at index 2 and the email at index 3 of the order
[date, time, name, email, description]. The state hypothesis rules out the
zero-id resolver bug treated under C4. -/
theorem C1_valid_payload_appends_one_row
    (sheetName today nm em : String) (d : EventData) (ss : Spreadsheet)
    (hnm : nm ≠ "") (hem : em ≠ "")
    (hdn : d.name = .vStr nm) (hde : d.email = .vStr em)
    (hid : ∀ s, ss.findSheet sheetName = some s → s.sheetId ≠ 0) :
    (handleWebhook sheetName today noFail ss
        ⟨.vStr "schedule_appointment", .obj d⟩).response
      = .ok200 true "Event added to calendar" ∧
    ∃ sh, (handleWebhook sheetName today noFail ss
            ⟨.vStr "schedule_appointment", .obj d⟩).finalState.findSheet sheetName
        = some sh ∧
      sh.rows = (match ss.findSheet sheetName with
                 | some sh0 => sh0.rows
                 | none => [headerRow]) ++ [buildRow today (.obj d)] ∧
      (buildRow today (.obj d))[2]? = some (.vStr nm) ∧
      (buildRow today (.obj d))[3]? = some (.vStr em) := by
  have hn : (BodyData.obj d).name.truthy = true := by
    simp [BodyData.name, hdn, JSVal.truthy, hnm]
  have he : (BodyData.obj d).email.truthy = true := by
    simp [BodyData.email, hde, JSVal.truthy, hem]
  rw [handleWebhook_valid sheetName today noFail ss _ rfl hn he]
  have hrow2 : (buildRow today (.obj d))[2]? = some (.vStr nm) := by
    simp [buildRow, BodyData.name, hdn]
  have hrow3 : (buildRow today (.obj d))[3]? = some (.vStr em) := by
    simp [buildRow, BodyData.email, hde]
  cases hfind : ss.sheets.find? (fun s => s.title == sheetName) with
  | some sh0 =>
    have hsid : sh0.sheetId ≠ 0 := hid sh0 hfind
    rw [addToCalendar_found sheetName today (.obj d) ss sh0 hfind hsid]
    dsimp only
    refine ⟨rfl, ⟨{ sh0 with rows := sh0.rows ++ [buildRow today (.obj d)] },
      ?_, ?_, hrow2, hrow3⟩⟩
    · show Spreadsheet.findSheet _ sheetName = _
      unfold Spreadsheet.findSheet
      dsimp only
      rw [find?_updateFirst (fun s => s.title == sheetName)
          (fun s => { s with rows := s.rows ++ [buildRow today (.obj d)] })
          (fun s hs => hs) ss.sheets, hfind]
      rfl
    · show _ = (match ss.findSheet sheetName with
                 | some sh0 => sh0.rows
                 | none => [headerRow]) ++ [buildRow today (.obj d)]
      unfold Spreadsheet.findSheet
      rw [hfind]
  | none =>
    rw [addToCalendar_notFound sheetName today (.obj d) ss hfind]
    dsimp only
    have hall : ∀ x ∈ ss.sheets, (x.title == sheetName) = false := by
      intro x hx
      have hnx := List.find?_eq_none.mp hfind x hx
      cases h : (x.title == sheetName) with
      | false => rfl
      | true => exact absurd h hnx
    refine ⟨rfl, ⟨⟨ss.nextId, sheetName, 1000, 10,
        [headerRow, buildRow today (.obj d)]⟩, ?_, ?_, hrow2, hrow3⟩⟩
    · show Spreadsheet.findSheet _ sheetName = _
      unfold Spreadsheet.findSheet
      exact find?_append_last _ _ hall _ (by simp)
    · unfold Spreadsheet.findSheet
      rw [hfind]
      rfl

/-- C1 witness: the spec's scenario payload against the empty spreadsheet. -/
theorem C1_witness :
    (handleWebhook "Calendar" "2026-10-12" noFail emptyState
      ⟨.vStr "schedule_appointment", .obj janeData⟩).response
      = .ok200 true "Event added to calendar" :=
  (C1_valid_payload_appends_one_row "Calendar" "2026-10-12" "Jane Doe" "jane@example.com"
    janeData emptyState
    (by decide) (by decide) rfl rfl (fun s hs => Option.noConfusion hs)).1

/-- C2 counterexample: with event present but equal to the empty string, the
claim's mapping assigns `Unsupported event type` (event present and different
from schedule_appointment), yet the handler answers
`Missing event or data`, because the first gate tests truthiness. -/
theorem C2_counterexample_empty_event :
    (JSVal.vStr "").present = true ∧
    (JSVal.vStr "").strictEqStr "schedule_appointment" = false ∧
    (handleWebhook "Calendar" "2026-10-12" noFail emptyState
        ⟨.vStr "", .obj janeData⟩).response = .badRequest "Missing event or data" ∧
    (handleWebhook "Calendar" "2026-10-12" noFail emptyState
        ⟨.vStr "", .obj janeData⟩).response ≠ .badRequest "Unsupported event type" := by
  refine ⟨rfl, rfl, rfl, by decide⟩

/-- C2 amended: the validator maps each failure shape to a distinct 400
response, with presence read as truthiness: event or data missing-or-falsy
gives `Missing event or data`; event truthy but not strictly equal to
schedule_appointment gives `Unsupported event type`; event correct but
data.name or data.email missing-or-falsy gives `Missing required fields`;
and no other 400 body exists. -/
theorem C2_amended_validation_trichotomy (sheetName today : String) (fs : FailSpec)
    (ss : Spreadsheet) (body : RequestBody) :
    (body.event.truthy = false ∨ body.data.truthy = false →
      (handleWebhook sheetName today fs ss body).response
        = .badRequest "Missing event or data") ∧
    (body.event.truthy = true → body.data.truthy = true →
      body.event.strictEqStr "schedule_appointment" = false →
      (handleWebhook sheetName today fs ss body).response
        = .badRequest "Unsupported event type") ∧
    (body.event.strictEqStr "schedule_appointment" = true → body.data.truthy = true →
      body.data.name.truthy = false ∨ body.data.email.truthy = false →
      (handleWebhook sheetName today fs ss body).response
        = .badRequest "Missing required fields") ∧
    (∀ e, (handleWebhook sheetName today fs ss body).response = .badRequest e →
      e = "Missing event or data" ∨ e = "Unsupported event type" ∨
      e = "Missing required fields") := by
  refine ⟨?_, ?_, ?_, ?_⟩
  · rintro (h | h) <;> simp [handleWebhook, h]
  · intro hev hd hne
    simp [handleWebhook, hev, hd, hne]
  · intro hseq hd hor
    have hev : body.event.truthy = true := JSVal.truthy_of_scheduleEq hseq
    rcases hor with h | h <;> simp [handleWebhook, hev, hd, hseq, h]
  · intro e h
    unfold handleWebhook at h
    split at h
    · exact Or.inl (HttpResponse.badRequest.inj h).symm
    · split at h
      · exact Or.inr (Or.inl (HttpResponse.badRequest.inj h).symm)
      · split at h
        · exact Or.inr (Or.inr (HttpResponse.badRequest.inj h).symm)
        · dsimp only at h
          split at h
          · exact HttpResponse.noConfusion h
          · exact HttpResponse.noConfusion h

/-- C2 amended witness: a truthy unsupported event is answered with 400
`Unsupported event type`. -/
theorem C2_amended_witness :
    (handleWebhook "Calendar" "2026-10-12" noFail emptyState
        ⟨.vStr "cancel_appointment", .obj janeData⟩).response
      = .badRequest "Unsupported event type" :=
  (C2_amended_validation_trichotomy "Calendar" "2026-10-12" noFail emptyState
      ⟨.vStr "cancel_appointment", .obj janeData⟩).2.1 (by decide) (by decide) (by decide)

/-- C3: on a healthy backend, the run appends exactly the built row, whose
date cell is the current UTC date (the today parameter stands for
`new Date().toISOString().split('T')[0]`) when data.date is omitted, whose
time cell is 12:00 when data.time is omitted, and whose description cell is
the empty string when data.description is omitted. -/
theorem C3_omitted_fields_get_defaults (sheetName today : String) (d : EventData)
    (ss : Spreadsheet)
    (hid : ∀ s, ss.findSheet sheetName = some s → s.sheetId ≠ 0) :
    (∃ sh, (addToCalendar sheetName today noFail ss (.obj d)).finalState.findSheet sheetName
        = some sh ∧ sh.rows.getLast? = some (buildRow today (.obj d))) ∧
    (d.date = .vUndefined → (buildRow today (.obj d))[0]? = some (.vStr today)) ∧
    (d.time = .vUndefined → (buildRow today (.obj d))[1]? = some (.vStr "12:00")) ∧
    (d.description = .vUndefined → (buildRow today (.obj d))[4]? = some (.vStr "")) := by
  refine ⟨addToCalendar_appends_buildRow sheetName today (.obj d) ss hid, ?_, ?_, ?_⟩
  · intro h; simp [buildRow, BodyData.date, h, jsOr, JSVal.truthy]
  · intro h; simp [buildRow, BodyData.time, h, jsOr, JSVal.truthy]
  · intro h; simp [buildRow, BodyData.description, h, jsOr, JSVal.truthy]

/-- C3 witness: the scenario payload omits date, time and description, and
the built row carries the three defaults. -/
theorem C3_witness :
    (buildRow "2026-10-12" (.obj janeData))[0]? = some (.vStr "2026-10-12") ∧
    (buildRow "2026-10-12" (.obj janeData))[1]? = some (.vStr "12:00") ∧
    (buildRow "2026-10-12" (.obj janeData))[4]? = some (.vStr "") := by
  have h := C3_omitted_fields_get_defaults "Calendar" "2026-10-12" janeData emptyState
      (fun s hs => Option.noConfusion hs)
  exact ⟨h.2.1 rfl, h.2.2.1 rfl, h.2.2.2 rfl⟩

/-- C4: the code violates the provisioning contract. In a state whose only
sheet is titled Calendar with internal id 0, the resolver does report the
sheet (it returns some 0, not the null sentinel), yet the provisioner runs:
the trace contains the addSheet structural update, the backend rejects the
duplicate title, and the whole request fails with 500 instead of appending
a row. The `!sheetId` guard of src/index.js line 40 conflates the resolved
id 0 with null. -/
theorem C4_zero_id_sheet_triggers_recreation :
    getSheetId zeroIdState "Calendar" = some 0 ∧
    ((addToCalendar "Calendar" "2026-10-12" noFail zeroIdState (.obj janeData)).trace.contains
        (.batchUpdateAddSheet "Calendar" 1000 10) = true) ∧
    (addToCalendar "Calendar" "2026-10-12" noFail zeroIdState (.obj janeData)).result
      = .error (wrapErr "A sheet with the name \"Calendar\" already exists") ∧
    (handleWebhook "Calendar" "2026-10-12" noFail zeroIdState
        ⟨.vStr "schedule_appointment", .obj janeData⟩).response
      = .serverError "Internal server error"
          (wrapErr "A sheet with the name \"Calendar\" already exists") := by
  refine ⟨rfl, rfl, rfl, rfl⟩

/-- C5: the resolver returns the identifier of a sheet whose title equals the
target name under exact case-sensitive string equality, and the null sentinel
exactly when no title matches. -/
theorem C5_resolver_exact_match (ss : Spreadsheet) (name : String) :
    (getSheetId ss name = none ↔ ∀ s ∈ ss.sheets, s.title ≠ name) ∧
    ∀ i, getSheetId ss name = some i →
      ∃ s ∈ ss.sheets, s.title = name ∧ s.sheetId = i := by
  constructor
  · constructor
    · intro h s hs heq
      rcases hf : ss.sheets.find? (fun s => s.title == name) with - | s0
      · exact absurd (by simp [heq]) (List.find?_eq_none.mp hf s hs)
      · unfold getSheetId at h
        rw [hf] at h
        exact Option.noConfusion h
    · intro h
      unfold getSheetId
      rcases hf : ss.sheets.find? (fun s => s.title == name) with - | s0
      · rw [hf]
      · have hmem := List.mem_of_find?_eq_some hf
        have hp := List.find?_some hf
        exact absurd (by simpa using hp) (h s0 hmem)
  · intro i h
    rcases hf : ss.sheets.find? (fun s => s.title == name) with - | s0
    · unfold getSheetId at h
      rw [hf] at h
      exact Option.noConfusion h
    · unfold getSheetId at h
      rw [hf] at h
      have hmem := List.mem_of_find?_eq_some hf
      have hp := List.find?_some hf
      exact ⟨s0, hmem, by simpa using hp, Option.some.inj h⟩

/-- C5 witness: matching is case-sensitive, so `calendar` misses the sheet
titled `Calendar`, while the exact title resolves to its id 7. -/
theorem C5_witness :
    getSheetId ⟨[⟨7, "Calendar", 1000, 10, []⟩], 8⟩ "calendar" = none ∧
    (∃ s ∈ (⟨[⟨7, "Calendar", 1000, 10, []⟩], 8⟩ : Spreadsheet).sheets,
      s.title = "Calendar" ∧ s.sheetId = 7) :=
  ⟨(C5_resolver_exact_match ⟨[⟨7, "Calendar", 1000, 10, []⟩], 8⟩ "calendar").1.mpr
      (by decide),
   (C5_resolver_exact_match ⟨[⟨7, "Calendar", 1000, 10, []⟩], 8⟩ "Calendar").2 7
      (by decide)⟩

/-- C6: when the resolver reports not found, the run issues exactly one
batched structural-update request creating a sheet with the configured name
and a 1000-row by 10-column grid, then writes the header row
[Date, Time, Name, Email, Description] to row 1, columns A through E, with
USER_ENTERED input parsing. -/
theorem C6_provisioner_one_create_then_header (sheetName today : String) (d : BodyData)
    (ss : Spreadsheet) (hnone : getSheetId ss sheetName = none) :
    (addToCalendar sheetName today noFail ss d).trace
      = [.getMetadata,
         .batchUpdateAddSheet sheetName 1000 10,
         .valuesUpdate (sheetName ++ "!A1:E1") "USER_ENTERED" [headerRow],
         .valuesAppend (sheetName ++ "!A:E") "USER_ENTERED" "INSERT_ROWS"
           [buildRow today d]] ∧
    ((addToCalendar sheetName today noFail ss d).trace.countP
      (fun c => match c with
                | .batchUpdateAddSheet _ _ _ => true
                | _ => false)) = 1 := by
  have hfind := find?_eq_none_of_getSheetId_eq_none hnone
  rw [addToCalendar_notFound sheetName today d ss hfind]
  exact ⟨rfl, rfl⟩

/-- C6 witness: the provisioning trace on the empty spreadsheet. -/
theorem C6_witness :
    (addToCalendar "Calendar" "2026-10-12" noFail emptyState (.obj janeData)).trace
      = [.getMetadata,
         .batchUpdateAddSheet "Calendar" 1000 10,
         .valuesUpdate "Calendar!A1:E1" "USER_ENTERED" [headerRow],
         .valuesAppend "Calendar!A:E" "USER_ENTERED" "INSERT_ROWS"
           [buildRow "2026-10-12" (.obj janeData)]] :=
  (C6_provisioner_one_create_then_header "Calendar" "2026-10-12" (.obj janeData)
    emptyState rfl).1

/-- C7: whichever of the four remote calls fails (metadata fetch, sheet
creation, header write, row append), the thrown message is the fixed prefix
`Failed to update spreadsheet: ` followed by the original message, and the
handler answers 500 with error `Internal server error` and details equal to
exactly that wrapped message, nothing more (sub-errors are only logged). -/
theorem C7_backend_errors_wrapped (sheetName today msg nm em : String)
    (d : EventData) (ss : Spreadsheet)
    (hnm : nm ≠ "") (hem : em ≠ "")
    (hdn : d.name = .vStr nm) (hde : d.email = .vStr em)
    (hnone : getSheetId ss sheetName = none) :
    ((handleWebhook sheetName today ⟨some msg, none, none, none⟩ ss
        ⟨.vStr "schedule_appointment", .obj d⟩).response
      = .serverError "Internal server error" (wrapErr msg)) ∧
    ((handleWebhook sheetName today ⟨none, some msg, none, none⟩ ss
        ⟨.vStr "schedule_appointment", .obj d⟩).response
      = .serverError "Internal server error" (wrapErr msg)) ∧
    ((handleWebhook sheetName today ⟨none, none, some msg, none⟩ ss
        ⟨.vStr "schedule_appointment", .obj d⟩).response
      = .serverError "Internal server error" (wrapErr msg)) ∧
    ((handleWebhook sheetName today ⟨none, none, none, some msg⟩ ss
        ⟨.vStr "schedule_appointment", .obj d⟩).response
      = .serverError "Internal server error" (wrapErr msg)) ∧
    wrapErr msg = "Failed to update spreadsheet: " ++ msg := by
  have hn : (BodyData.obj d).name.truthy = true := by
    simp [BodyData.name, hdn, JSVal.truthy, hnm]
  have he : (BodyData.obj d).email.truthy = true := by
    simp [BodyData.email, hde, JSVal.truthy, hem]
  have htr : sheetIdTruthy (getSheetId ss sheetName) = false := by
    rw [hnone]; rfl
  have hfind := find?_eq_none_of_getSheetId_eq_none hnone
  have hany : ss.sheets.any (fun s => s.title == sheetName) = false :=
    any_eq_false_of_find?_eq_none hfind
  refine ⟨?_, ?_, ?_, ?_, rfl⟩ <;>
    rw [handleWebhook_valid _ _ _ _ _ rfl hn he]
  · rfl
  · simp [addToCalendar, htr]
  · simp [addToCalendar, htr, addSheetOp, hany]
  · simp [addToCalendar, htr, addSheetOp, hany, setHeaderOp, List.any_append,
      appendStep]

/-- C7 witness: the spec's invalid-credentials scenario, failing the metadata
fetch. -/
theorem C7_witness :
    (handleWebhook "Calendar" "2026-10-12" ⟨some "invalid credentials", none, none, none⟩
        emptyState ⟨.vStr "schedule_appointment", .obj janeData⟩).response
      = .serverError "Internal server error"
          "Failed to update spreadsheet: invalid credentials" :=
  (C7_backend_errors_wrapped "Calendar" "2026-10-12" "invalid credentials"
    "Jane Doe" "jane@example.com" janeData emptyState
    (by decide) (by decide) rfl rfl rfl).1

/-- C8: every request the validator rejects with a 400 leaves the backend
untouched: the full outcome is the 400 response, the unchanged spreadsheet
state, and an empty call trace. -/
theorem C8_rejected_request_is_pure (sheetName today : String) (fs : FailSpec)
    (ss : Spreadsheet) (body : RequestBody) (e : String)
    (h : (handleWebhook sheetName today fs ss body).response = .badRequest e) :
    handleWebhook sheetName today fs ss body = ⟨.badRequest e, ss, []⟩ := by
  by_cases h1 : (!body.event.truthy || !body.data.truthy) = true
  · have hw : handleWebhook sheetName today fs ss body
        = ⟨.badRequest "Missing event or data", ss, []⟩ := by
      simp [handleWebhook, h1]
    rw [hw] at h
    rw [hw, ← HttpResponse.badRequest.inj h]
  · simp only [Bool.not_eq_true] at h1
    by_cases h2 : body.event.strictEqStr "schedule_appointment" = true
    · by_cases h3 : (!body.data.name.truthy || !body.data.email.truthy) = true
      · have hw : handleWebhook sheetName today fs ss body
            = ⟨.badRequest "Missing required fields", ss, []⟩ := by
          simp [handleWebhook, h1, h2, h3]
        rw [hw] at h
        rw [hw, ← HttpResponse.badRequest.inj h]
      · simp only [Bool.not_eq_true] at h3
        exfalso
        simp only [handleWebhook, h1, h2, h3, Bool.not_true, Bool.false_eq_true, if_false,
          Bool.or_false, Bool.or_self] at h
        cases hres : (addToCalendar sheetName today fs ss body.data).result with
        | ok r => rw [hres] at h; exact HttpResponse.noConfusion h
        | error m => rw [hres] at h; exact HttpResponse.noConfusion h
    · simp only [Bool.not_eq_true] at h2
      have hw : handleWebhook sheetName today fs ss body
          = ⟨.badRequest "Unsupported event type", ss, []⟩ := by
        simp [handleWebhook, h1, h2]
      rw [hw] at h
      rw [hw, ← HttpResponse.badRequest.inj h]

/-- C8 witness: the spec's cancel_appointment scenario appends nothing and
issues no remote call. -/
theorem C8_witness :
    handleWebhook "Calendar" "2026-10-12" noFail emptyState
        ⟨.vStr "cancel_appointment", .obj janeData⟩
      = ⟨.badRequest "Unsupported event type", emptyState, []⟩ :=
  C8_rejected_request_is_pure "Calendar" "2026-10-12" noFail emptyState
    ⟨.vStr "cancel_appointment", .obj janeData⟩ "Unsupported event type" (by decide)

/-- C9: validation tests truthiness, not presence. A present-but-falsy event,
or a present-but-falsy data member, is answered with 400
`Missing event or data`; with the correct event, a present-but-falsy
data.name or data.email is answered with 400 `Missing required fields`. -/
theorem C9_truthiness_not_presence (sheetName today : String) (fs : FailSpec)
    (ss : Spreadsheet) (body : RequestBody) :
    (body.event.present = true → body.event.truthy = false →
      (handleWebhook sheetName today fs ss body).response
        = .badRequest "Missing event or data") ∧
    (∀ v, body.data = .prim v → v.present = true → v.truthy = false →
      (handleWebhook sheetName today fs ss body).response
        = .badRequest "Missing event or data") ∧
    (body.event = .vStr "schedule_appointment" → body.data.truthy = true →
      (body.data.name.present = true ∧ body.data.name.truthy = false) ∨
      (body.data.email.present = true ∧ body.data.email.truthy = false) →
      (handleWebhook sheetName today fs ss body).response
        = .badRequest "Missing required fields") := by
  refine ⟨?_, ?_, ?_⟩
  · intro _ h
    simp [handleWebhook, h]
  · intro v hv _ h
    simp [handleWebhook, hv, BodyData.truthy, h]
  · intro hev hd hor
    have hevt : body.event.truthy = true := by rw [hev]; decide
    have hseq : body.event.strictEqStr "schedule_appointment" = true := by rw [hev]; decide
    rcases hor with ⟨_, h⟩ | ⟨_, h⟩ <;> simp [handleWebhook, hevt, hd, hseq, h]

/-- C9 witness: the empty-string event is reported as missing, not as an
unsupported event type, and an empty-string name is a missing required
field. -/
theorem C9_witness :
    (handleWebhook "Calendar" "2026-10-12" noFail emptyState
        ⟨.vStr "", .obj janeData⟩).response ≠ .badRequest "Unsupported event type" ∧
    (handleWebhook "Calendar" "2026-10-12" noFail emptyState
        ⟨.vStr "schedule_appointment",
         .obj ⟨.vStr "", .vStr "jane@example.com", .vUndefined, .vUndefined, .vUndefined⟩⟩).response
      = .badRequest "Missing required fields" :=
  ⟨by
    rw [(C9_truthiness_not_presence "Calendar" "2026-10-12" noFail emptyState
        ⟨.vStr "", .obj janeData⟩).1 (by decide) (by decide)]
    decide,
   (C9_truthiness_not_presence "Calendar" "2026-10-12" noFail emptyState
      ⟨.vStr "schedule_appointment",
       .obj ⟨.vStr "", .vStr "jane@example.com", .vUndefined, .vUndefined, .vUndefined⟩⟩).2.2
     rfl rfl (Or.inl ⟨rfl, rfl⟩)⟩

/-- C10: default substitution applies to any falsy field value, not only to
absent fields: a present-but-falsy data.date, data.time or data.description
is replaced in the appended row by the current UTC date, 12:00, or the empty
string respectively. -/
theorem C10_falsy_fields_get_defaults (sheetName today : String) (d : EventData)
    (ss : Spreadsheet)
    (hid : ∀ s, ss.findSheet sheetName = some s → s.sheetId ≠ 0) :
    (∃ sh, (addToCalendar sheetName today noFail ss (.obj d)).finalState.findSheet sheetName
        = some sh ∧ sh.rows.getLast? = some (buildRow today (.obj d))) ∧
    (d.date.present = true → d.date.truthy = false →
      (buildRow today (.obj d))[0]? = some (.vStr today)) ∧
    (d.time.present = true → d.time.truthy = false →
      (buildRow today (.obj d))[1]? = some (.vStr "12:00")) ∧
    (d.description.present = true → d.description.truthy = false →
      (buildRow today (.obj d))[4]? = some (.vStr "")) := by
  refine ⟨addToCalendar_appends_buildRow sheetName today (.obj d) ss hid, ?_, ?_, ?_⟩
  · intro _ h; simp [buildRow, BodyData.date, jsOr, h]
  · intro _ h; simp [buildRow, BodyData.time, jsOr, h]
  · intro _ h; simp [buildRow, BodyData.description, jsOr, h]

/-- C10 witness: date the empty string, time the number 0, description the
boolean false; all three cells fall back to the defaults. -/
theorem C10_witness :
    (buildRow "2026-10-12" (.obj falsyFieldsData))[0]? = some (.vStr "2026-10-12") ∧
    (buildRow "2026-10-12" (.obj falsyFieldsData))[1]? = some (.vStr "12:00") ∧
    (buildRow "2026-10-12" (.obj falsyFieldsData))[4]? = some (.vStr "") := by
  have h := C10_falsy_fields_get_defaults "Calendar" "2026-10-12" falsyFieldsData emptyState
      (fun s hs => Option.noConfusion hs)
  exact ⟨h.2.1 rfl rfl, h.2.2.1 rfl rfl, h.2.2.2 rfl rfl⟩

end Calendar
